import Mathlib

/-
Verification of the wordpress-audit-automation pipeline (src/dbutils.py and
src/wordpress-plugin-audit.py) against its natural-language specification.

Each Python function relevant to the claims is shallowly embedded as an
executable Lean definition.  External collaborators (the sqlite3 engine, the
HTTP catalog, the zip decoder, the analyzer process) are modelled only to the
extent the embedded code observes them, with the modelling choice documented
at the definition.
-/

namespace WPAudit

namespace DbUtils

/-- A value as stored in a SQLite column: NULL, an integer, or text.
This is the observable shape of the tuples bound by cursor.execute in
dbutils.py. -/
inductive SqlValue where
| null : SqlValue
| int : Int → SqlValue
| text : String → SqlValue
deriving DecidableEq, Repr

/-- A row of the PluginData table (dbutils.py, create_plugin_data_table):
slug is the PRIMARY KEY, every other column is a plain value. -/
structure Row where
  slug : String
  version : SqlValue
  active_installs : SqlValue
  downloaded : SqlValue
  last_updated : SqlValue
  added_date : SqlValue
  download_link : SqlValue
deriving DecidableEq, Repr

/-- The ON CONFLICT(slug) DO UPDATE SET clause of insert_plugin_into_db
(dbutils.py lines 76-86): the row keeps its key and every non-key column is
replaced by the excluded (incoming) value. -/
def conflictUpdate (old excluded : Row) : Row :=
  { slug := old.slug
    version := excluded.version
    active_installs := excluded.active_installs
    downloaded := excluded.downloaded
    last_updated := excluded.last_updated
    added_date := excluded.added_date
    download_link := excluded.download_link }

/-- The INSERT ... ON CONFLICT(slug) DO UPDATE statement executed by
insert_plugin_into_db, over a table modelled as a list of rows: if a row with
the same slug exists it is updated per `conflictUpdate`, otherwise the new row
is appended. -/
def upsert (table : List Row) (r : Row) : List Row :=
  if r.slug ∈ table.map Row.slug then
    table.map (fun q => if q.slug = r.slug then conflictUpdate q r else q)
  else
    table ++ [r]

/-- The PRIMARY KEY invariant of the PluginData table: slugs are pairwise
distinct. -/
def slugsNodup (table : List Row) : Prop :=
  (table.map Row.slug).Nodup

instance (table : List Row) : Decidable (slugsNodup table) := by
  unfold slugsNodup
  infer_instance

/-- A timestamp in the catalog source format "YYYY-MM-DD hh:mmAM/PM ZONE",
as the components that strptime(%Y-%m-%d %I:%M%p %Z) extracts from it
(dbutils.py line 94).  hour12 ranges over 1..12, pm records AM versus PM. -/
structure SrcTimestamp where
  year : Nat
  month : Nat
  day : Nat
  hour12 : Nat
  minute : Nat
  pm : Bool
  zone : String
deriving DecidableEq, Repr

/-- A calendar date in the catalog source format "YYYY-MM-DD", as parsed by
strptime(%Y-%m-%d) (dbutils.py line 98). -/
structure SrcDate where
  year : Nat
  month : Nat
  day : Nat
deriving DecidableEq, Repr

/-- Zero padding to two digits, as strftime %m, %d, %H, %M, %S produce. -/
def pad2 (n : Nat) : String :=
  if n < 10 then "0" ++ toString n else toString n

/-- Zero padding to four digits, as strftime %Y produces for calendar years. -/
def pad4 (n : Nat) : String :=
  if n < 10 then "000" ++ toString n
  else if n < 100 then "00" ++ toString n
  else if n < 1000 then "0" ++ toString n
  else toString n

/-- The normalization insert_plugin_into_db applies to a present last_updated
value (dbutils.py lines 93-96): strptime(%Y-%m-%d %I:%M%p %Z) followed by
strftime(%Y-%m-%d %H:%M:%S).  The 12-hour clock is converted to the 24-hour
clock (12AM maps to 00, 12PM to 12), seconds are zero, the zone is dropped. -/
def normalizeLastUpdated (t : SrcTimestamp) : String :=
  pad4 t.year ++ "-" ++ pad2 t.month ++ "-" ++ pad2 t.day ++ " " ++
    pad2 (t.hour12 % 12 + (if t.pm then 12 else 0)) ++ ":" ++ pad2 t.minute ++ ":00"

/-- The round trip insert_plugin_into_db applies to a present added date
(dbutils.py line 98): strptime(%Y-%m-%d) followed by strftime(%Y-%m-%d). -/
def formatAddedDate (d : SrcDate) : String :=
  pad4 d.year ++ "-" ++ pad2 d.month ++ "-" ++ pad2 d.day

/-- A catalog plugin entry as insert_plugin_into_db reads it: a mapping in
which every field may be absent.  Present date fields are represented by their
parsed components (the code would raise on a malformed present date; absence
is the case the claims are about). -/
structure PluginJson where
  slug : Option String
  version : Option String
  active_installs : Option Int
  downloaded : Option Int
  last_updated : Option SrcTimestamp
  added : Option SrcDate
  download_link : Option String
deriving DecidableEq, Repr

/-- Python exceptions observable from insert_plugin_into_db before the SQL
statement runs. -/
inductive PyErr where
| keyError : PyErr
deriving DecidableEq, Repr

/-- The data-tuple preparation of insert_plugin_into_db (dbutils.py lines
88-108): plugin["slug"] raises KeyError when absent; version and
download_link default to "N/A"; active_installs and downloaded default to 0;
a present last_updated is normalized, an absent one stays None (NULL); the
added date is reformatted or stays None. -/
def buildData (p : PluginJson) : Except PyErr Row :=
  match p.slug with
  | none => .error .keyError
  | some s =>
    .ok
      { slug := s
        version := .text (p.version.getD "N/A")
        active_installs := .int (p.active_installs.getD 0)
        downloaded := .int (p.downloaded.getD 0)
        last_updated :=
          match p.last_updated with
          | some t => .text (normalizeLastUpdated t)
          | none => .null
        added_date :=
          match p.added with
          | some d => .text (formatAddedDate d)
          | none => .null
        download_link := .text (p.download_link.getD "N/A") }

/-- insert_plugin_into_db as a state transformer on the PluginData table:
the data tuple is built first (raising KeyError before any write when slug is
absent), then the upsert statement executes. -/
def insert_plugin_into_db (table : List Row) (p : PluginJson) :
    List Row × Option PyErr :=
  match buildData p with
  | .error e => (table, some e)
  | .ok r => (upsert table r, none)

end DbUtils

namespace Select

/-- A PluginData row as select_plugins_for_download observes it: the two
selected columns plus the two columns the WHERE clause reads.  Time is
abstracted to an integer axis; a NULL last_updated is `none`. -/
structure PluginRow where
  slug : String
  download_link : String
  active_installs : Int
  last_updated : Option Int
deriving DecidableEq, Repr

/-- The WHERE clause of select_plugins_for_download (dbutils.py lines
146-149): active_installs > threshold AND last_updated >= two_years_ago.
Per SQL three-valued logic a NULL last_updated makes the comparison NULL, so
the row is not selected. -/
def rowSelected (active_installs two_years_ago : Int) (r : PluginRow) : Bool :=
  decide (active_installs < r.active_installs) &&
    (match r.last_updated with
     | some t => decide (two_years_ago ≤ t)
     | none => false)

/-- select_plugins_for_download (dbutils.py lines 145-157): SELECT slug,
download_link FROM PluginData WHERE active_installs > ? AND last_updated >= ?.
The parameter two_years_ago stands for datetime.now() minus
relativedelta(years=2) on the abstract time axis. -/
def select_plugins_for_download (rows : List PluginRow)
    (active_installs two_years_ago : Int) : List (String × String) :=
  (rows.filter (rowSelected active_installs two_years_ago)).map
    (fun r => (r.slug, r.download_link))

end Select

namespace Downloader

/-- The batch loop of download_plugins_in_database
(wordpress-plugin-audit.py lines 64-79): coroutines are appended to the
`ongoing` list; when its length reaches `limit` the whole batch is awaited
with asyncio.gather and the list is reset; a final non-empty remainder is
awaited after the loop.  The result is the sequence of gathered batches, in
the order they are awaited. -/
def flushAt (limit : Nat) : List α → List α → List (List α)
  | [], ongoing => if 0 < ongoing.length then [ongoing] else []
  | t :: ts, ongoing =>
    if (ongoing ++ [t]).length = limit then
      (ongoing ++ [t]) :: flushAt limit ts []
    else
      flushAt limit ts (ongoing ++ [t])

/-- The literal batch size 10 tested at line 72 of
wordpress-plugin-audit.py (if len(ongoing) == 10). -/
def gatherLimit : Nat := 10

/-- The schedule of gathered batches produced by
download_plugins_in_database over the selected plugin list.  Work in one
batch is in flight together during its asyncio.gather call; the next batch is
admitted only after that call returns. -/
def download_plugins_in_database (plugins : List α) : List (List α) :=
  flushAt gatherLimit plugins []

end Downloader

namespace Catalog

/-- A response of get_plugins as write_plugins_to_db observes it: the "info"
object (reduced to its "pages" count) and the "plugins" list may each be
absent; a failed HTTP request is `none` at the source. -/
structure Page where
  info_pages : Option Nat
  plugins : Option (List String)
deriving DecidableEq, Repr

/-- The body of the pagination loop of write_plugins_to_db
(wordpress-plugin-audit.py lines 45-56) over a given list of page numbers:
each page in turn is requested from the source; a missing response or a
response without a "plugins" key breaks the loop; otherwise every plugin on
the page is inserted.  Returns the request trace and the inserted plugins. -/
def runPages (source : Nat → Option Page) : List Nat → List Nat × List String
  | [] => ([], [])
  | p :: rest =>
    match source p with
    | none => ([p], [])
    | some pg =>
      match pg.plugins with
      | none => ([p], [])
      | some items =>
        ((p :: (runPages source rest).1), items ++ (runPages source rest).2)

/-- write_plugins_to_db (wordpress-plugin-audit.py lines 33-56): page 1 is
requested to learn the total page count; absent a response or an "info" key
the function returns; otherwise the loop requests pages 1 through
total_pages (range(1, total_pages + 1)) in order.  Returns the full request
trace and the inserted plugins. -/
def write_plugins_to_db (source : Nat → Option Page) : List Nat × List String :=
  match source 1 with
  | none => ([1], [])
  | some pg =>
    match pg.info_pages with
    | none => ([1], [])
    | some total =>
      (1 :: (runPages source (List.range' 1 total)).1,
        (runPages source (List.range' 1 total)).2)

end Catalog

namespace Archive

/-- A member of a zip archive: its path (all members of a plugin archive sit
under the slug directory) and whether its compressed data is corrupt.  A
corrupt member makes ZipFile.extractall raise BadZipFile when it is reached,
after the earlier members have already been written. -/
structure ZipEntry where
  path : String
  corrupt : Bool
deriving DecidableEq, Repr

/-- A downloaded archive: whether the central directory parses (the
zipfile.ZipFile constructor raises BadZipFile otherwise) and the member
list. -/
structure ZipArchive where
  centralDirOk : Bool
  entries : List ZipEntry
deriving DecidableEq, Repr

/-- The outcome of requests.get(download_link) followed by
raise_for_status: either a body that is handed to the zip decoder, or a
requests.RequestException (connection failure or bad status). -/
inductive NetResult where
| ok : ZipArchive → NetResult
| failure : NetResult
deriving DecidableEq, Repr

/-- How download_and_extract_plugin returns (wordpress-plugin-audit.py lines
83-107): an early return on an existing directory, a normal completion, or
one of the two caught-and-printed failures. -/
inductive Outcome where
| skipped : Outcome
| success : Outcome
| downloadFailed : Outcome
| badZip : Outcome
deriving DecidableEq, Repr

/-- ZipFile.extractall member by member: members are written in order until
the first corrupt one raises; the first component is the list of paths
actually written, the second records whether the extraction raised. -/
def extractUpToCorrupt : List ZipEntry → List String × Bool
  | [] => ([], false)
  | e :: es =>
    if e.corrupt then ([], true)
    else ((e.path :: (extractUpToCorrupt es).1), (extractUpToCorrupt es).2)

/-- The slug directory state after the try block of
download_and_extract_plugin runs with the directory initially absent:
a network failure writes nothing; an archive rejected by the ZipFile
constructor writes nothing; otherwise the members written before a corrupt
member stay on disk — the code has no cleanup path, the exception is caught
and only printed. -/
def fetchExtract (net : NetResult) : Option (List String) × Outcome :=
  match net with
  | .failure => (none, .downloadFailed)
  | .ok z =>
    if z.centralDirOk then
      (if (extractUpToCorrupt z.entries).1.isEmpty then none
       else some (extractUpToCorrupt z.entries).1,
       if (extractUpToCorrupt z.entries).2 then .badZip else .success)
    else (none, .badZip)

/-- The fetch path of download_and_extract_plugin, reached when the slug
directory is absent (or was just deleted): one network request, then decode
and extract.  The third component counts network requests. -/
def runFetch (net : NetResult) : Option (List String) × Outcome × Nat :=
  ((fetchExtract net).1, (fetchExtract net).2, 1)

/-- download_and_extract_plugin (wordpress-plugin-audit.py lines 83-107) as
a function of the replace flag, the initial state of the slug directory
(`none` absent, `some files` present with those files) and the network
outcome.  An existing directory with replace off returns at once; with
replace on it is removed by shutil.rmtree before the request is made. -/
def download_and_extract_plugin (replace : Bool) (dir : Option (List String))
    (net : NetResult) : Option (List String) × Outcome × Nat :=
  match dir with
  | some files => if replace then runFetch net else (some files, .skipped, 0)
  | none => runFetch net

/-- The member paths of a fully extracted archive. -/
def fullPaths (z : ZipArchive) : List String :=
  z.entries.map ZipEntry.path

/-- Archives whose extraction cannot stop in the middle: the download
failed, the central directory is rejected up front, no member is corrupt, or
the very first member is corrupt.  Outside this set extractall writes some
members and then raises. -/
def midCorruptFree : NetResult → Bool
  | .failure => true
  | .ok z =>
    !z.centralDirOk || z.entries.all (fun e => !e.corrupt) ||
      (match z.entries with
       | [] => true
       | e :: _ => e.corrupt)

end Archive

namespace Audit

/-- The result of subprocess.run on the semgrep command: exit 0, or a
CalledProcessError that line 136 of wordpress-plugin-audit.py catches and
prints before execution falls through to the read of the output file. -/
inductive AnalyzerRun where
| ok : AnalyzerRun
| fail : AnalyzerRun
deriving DecidableEq, Repr

/-- One semgrep finding as insert_result_into_db reads it (dbutils.py lines
123-130). -/
structure Finding where
  path : String
  check_id : String
  start_line : Nat
  end_line : Nat
  vuln_lines : String
deriving DecidableEq, Repr

/-- The state of semgrep_output.json when the code reaches line 144
(open(output_file)): absent (open raises FileNotFoundError), present but
unparseable (json.load raises JSONDecodeError), or a parsed results list.
Neither exception is caught there: the try block ends at line 141 and covers
only the subprocess call. -/
inductive OutputFile where
| absent : OutputFile
| malformed : OutputFile
| results : List Finding → OutputFile
deriving DecidableEq, Repr

/-- A plugin directory in the workspace together with the behaviour of its
analyzer invocation. -/
structure PluginDir where
  name : String
  run : AnalyzerRun
  output : OutputFile
deriving DecidableEq, Repr

/-- An exception that escapes run_semgrep_and_store_results and aborts the
whole audit pass. -/
inductive AbortErr where
| fileNotFound : String → AbortErr
| jsonDecodeError : String → AbortErr
deriving DecidableEq, Repr

/-- run_semgrep_and_store_results (wordpress-plugin-audit.py lines 110-148):
for each plugin directory the analyzer runs (a failure is caught and
reported, second component), then the output file is read outside any
handler: a missing or unparseable file raises out of the function.  Returns
the (slug, finding) pairs stored, the failure reports printed, and the
escaping exception if any. -/
def run_semgrep_and_store_results :
    List PluginDir → List (String × Finding) × List String × Option AbortErr
  | [] => ([], [], none)
  | p :: ps =>
    match p.output with
    | .absent =>
      ([], (match p.run with | .fail => [p.name] | .ok => []),
        some (.fileNotFound p.name))
    | .malformed =>
      ([], (match p.run with | .fail => [p.name] | .ok => []),
        some (.jsonDecodeError p.name))
    | .results fs =>
      (fs.map (fun f => (p.name, f)) ++ (run_semgrep_and_store_results ps).1,
        (match p.run with | .fail => [p.name] | .ok => []) ++
          (run_semgrep_and_store_results ps).2.1,
        (run_semgrep_and_store_results ps).2.2)

end Audit

namespace Schema

/-- The sqlite3 exception classes the embedded code distinguishes.
Executing a statement against a missing table raises
sqlite3.OperationalError (message "no such table: ..."); ProgrammingError is
reserved for API misuse such as binding mismatches. -/
inductive SqliteError where
| operationalError : SqliteError
| programmingError : SqliteError
deriving DecidableEq, Repr

/-- cursor.execute of any of the store statements (upsert, result append,
selection) as a function of whether the schema tables exist. -/
def executeStatement (schemaExists : Bool) : Except SqliteError Unit :=
  if schemaExists then .ok () else .error .operationalError

/-- How a store operation in dbutils.py terminates: normally, via the
actionable SystemExit raised by the except-ProgrammingError handler
(dbutils.py lines 110-115, 131-137, 155-162: "Table does not exist. Please
run with the --create-schema flag ..."), or via an exception no handler
catches. -/
inductive RunOutcome where
| completed : RunOutcome
| systemExitSchemaMessage : RunOutcome
| uncaughtException : SqliteError → RunOutcome
deriving DecidableEq, Repr

/-- The shared try/except shape of insert_plugin_into_db,
insert_result_into_db and select_plugins_for_download: cursor.execute runs
and only sqlite3.ProgrammingError is converted into the actionable
SystemExit; every other exception propagates. -/
def storeOperation (schemaExists : Bool) : RunOutcome :=
  match executeStatement schemaExists with
  | .ok _ => .completed
  | .error .programmingError => .systemExitSchemaMessage
  | .error e => .uncaughtException e

end Schema

/-
Concrete inputs used by the counterexamples and witnesses below.
-/

namespace DbUtils

/-- A one-row table holding slug "a" with its original field values. -/
def t0 : List Row :=
  [⟨"a", .text "1.0", .int 5, .int 7, .null, .null, .text "u1"⟩]

/-- A refreshed record for slug "a" with every non-key field changed. -/
def r0 : Row :=
  ⟨"a", .text "2.0", .int 9, .int 11, .text "2024-01-01 00:00:00",
    .text "2020-01-01", .text "u2"⟩

/-- A catalog entry carrying only its slug: every optional field absent. -/
def p0 : PluginJson := ⟨some "x", none, none, none, none, none, none⟩

/-- The row insert_plugin_into_db builds from `p0`. -/
def row0 : Row :=
  ⟨"x", .text "N/A", .int 0, .int 0, .null, .null, .text "N/A"⟩

/-- The source timestamp "2023-05-01 6:30pm GMT". -/
def ts0 : SrcTimestamp := ⟨2023, 5, 1, 6, 30, true, "GMT"⟩

/-- A catalog entry whose only present optional field is last_updated. -/
def p9 : PluginJson := ⟨some "x", none, none, none, some ts0, none, none⟩

/-- The row insert_plugin_into_db builds from `p9`. -/
def row9 : Row :=
  ⟨"x", .text "N/A", .int 0, .int 0, .text "2023-05-01 18:30:00", .null,
    .text "N/A"⟩

/-- A catalog entry with no slug at all. -/
def pNoSlug : PluginJson := ⟨none, none, none, none, none, none, none⟩

end DbUtils

namespace Catalog

/-- A catalog source reporting 3 total pages, every page present and
well-formed with one plugin. -/
def source3 : Nat → Option Page :=
  fun p => if p ≤ 3 then some ⟨some 3, some ["x"]⟩ else none

end Catalog

namespace Archive

/-- An archive whose central directory parses but whose second member is
corrupt: extractall writes "a.php" and then raises BadZipFile. -/
def zBad : ZipArchive := ⟨true, [⟨"a.php", false⟩, ⟨"b.php", true⟩]⟩

/-- A successful download of `zBad`. -/
def netBad : NetResult := .ok zBad

end Archive

namespace Audit

/-- Two findings produced by the successful plugin. -/
def f1 : Finding := ⟨"good/x.php", "php.lang.security.eval-use", 3, 3, "eval"⟩

/-- A second finding produced by the successful plugin. -/
def f2 : Finding := ⟨"good/y.php", "php.lang.security.exec-use", 8, 9, "exec"⟩

/-- A plugin directory on which the analyzer fails and writes no output
file. -/
def badDir : PluginDir := ⟨"bad", .fail, .absent⟩

/-- A plugin directory on which the analyzer succeeds with two findings. -/
def goodDir : PluginDir := ⟨"good", .ok, .results [f1, f2]⟩

end Audit

/-
Helper lemmas shared by the claim theorems.
-/

theorem conflictUpdate_self (q r : DbUtils.Row) (h : q.slug = r.slug) :
    DbUtils.conflictUpdate q r = r := by
  cases r
  simp_all [DbUtils.conflictUpdate]

theorem filter_update_eq_single (t : List DbUtils.Row) (r : DbUtils.Row)
    (hnd : (t.map DbUtils.Row.slug).Nodup)
    (hmem : r.slug ∈ t.map DbUtils.Row.slug) :
    (t.map (fun q => if q.slug = r.slug then DbUtils.conflictUpdate q r else q)).filter
      (fun q => decide (q.slug = r.slug)) = [r] := by
  induction t with
  | nil => simp at hmem
  | cons a t ih =>
    simp only [List.map_cons, List.nodup_cons] at hnd
    by_cases ha : a.slug = r.slug
    · rw [List.map_cons, if_pos ha, conflictUpdate_self a r ha]
      have htail :
          (t.map (fun q => if q.slug = r.slug then DbUtils.conflictUpdate q r else q)).filter
            (fun q => decide (q.slug = r.slug)) = [] := by
        rw [List.filter_eq_nil_iff]
        intro b hb
        obtain ⟨x, hx, rfl⟩ := List.mem_map.mp hb
        have hxne : x.slug ≠ r.slug := by
          intro hcon
          exact hnd.1 (ha ▸ hcon ▸ List.mem_map_of_mem DbUtils.Row.slug hx)
        rw [if_neg hxne]
        simp [hxne]
      simp [List.filter_cons, htail]
    · have hmem2 : r.slug ∈ t.map DbUtils.Row.slug := by
        rcases List.mem_map.mp hmem with ⟨x, hx, hxeq⟩
        rcases List.mem_cons.mp hx with h | h
        · exact absurd (h ▸ hxeq) ha
        · exact hxeq ▸ List.mem_map_of_mem DbUtils.Row.slug h
      rw [List.map_cons, if_neg ha, List.filter_cons]
      simp only [ha, decide_False]
      exact ih hnd.2 hmem2

theorem upsert_slugs (t : List DbUtils.Row) (r : DbUtils.Row) :
    (DbUtils.upsert t r).map DbUtils.Row.slug =
      if r.slug ∈ t.map DbUtils.Row.slug then t.map DbUtils.Row.slug
      else t.map DbUtils.Row.slug ++ [r.slug] := by
  unfold DbUtils.upsert
  by_cases hmem : r.slug ∈ t.map DbUtils.Row.slug
  · rw [if_pos hmem, if_pos hmem, List.map_map]
    apply List.map_congr_left
    intro q _
    by_cases hq : q.slug = r.slug
    · simp [hq, DbUtils.conflictUpdate]
    · simp [hq]
  · rw [if_neg hmem, if_neg hmem]
    simp

theorem upsert_nodup (t : List DbUtils.Row) (r : DbUtils.Row)
    (hnd : DbUtils.slugsNodup t) : DbUtils.slugsNodup (DbUtils.upsert t r) := by
  unfold DbUtils.slugsNodup at hnd ⊢
  rw [upsert_slugs]
  by_cases hmem : r.slug ∈ t.map DbUtils.Row.slug
  · rwa [if_pos hmem]
  · rw [if_neg hmem]
    simp [List.nodup_append, hnd, hmem]

theorem upsert_filter_eq_single (t : List DbUtils.Row) (r : DbUtils.Row)
    (hnd : DbUtils.slugsNodup t) :
    (DbUtils.upsert t r).filter (fun q => decide (q.slug = r.slug)) = [r] := by
  unfold DbUtils.upsert
  by_cases hmem : r.slug ∈ t.map DbUtils.Row.slug
  · rw [if_pos hmem]
    exact filter_update_eq_single t r hnd hmem
  · rw [if_neg hmem, List.filter_append]
    have ht : t.filter (fun q => decide (q.slug = r.slug)) = [] := by
      rw [List.filter_eq_nil_iff]
      intro q hq
      have : q.slug ≠ r.slug := fun hc => hmem (hc ▸ List.mem_map_of_mem DbUtils.Row.slug hq)
      simp [this]
    simp [ht]

theorem rowSelected_iff (active_installs two_years_ago : Int)
    (r : Select.PluginRow) :
    Select.rowSelected active_installs two_years_ago r = true ↔
      active_installs < r.active_installs ∧
        ∃ t, r.last_updated = some t ∧ two_years_ago ≤ t := by
  cases h : r.last_updated <;> simp [Select.rowSelected, h]

/-
Claim theorems.
-/

/-- C2: select_plugins_for_download returns exactly the (slug, download_link)
pairs of the stored rows whose active_installs strictly exceeds the threshold
and whose last_updated is non-null and at or after the two-years-ago cutoff;
rows with a NULL last_updated or failing either predicate are excluded. -/
theorem c2_select_for_download_exact (rows : List Select.PluginRow)
    (active_installs two_years_ago : Int) (p : String × String) :
    p ∈ Select.select_plugins_for_download rows active_installs two_years_ago ↔
      ∃ r, r ∈ rows ∧ active_installs < r.active_installs ∧
        (∃ t, r.last_updated = some t ∧ two_years_ago ≤ t) ∧
        p = (r.slug, r.download_link) := by
  simp only [Select.select_plugins_for_download, List.mem_map, List.mem_filter]
  constructor
  · rintro ⟨r, ⟨hmem, hsel⟩, hproj⟩
    rw [rowSelected_iff] at hsel
    exact ⟨r, hmem, hsel.1, hsel.2, hproj.symm⟩
  · rintro ⟨r, hmem, h1, h2, hp⟩
    exact ⟨r, ⟨hmem, (rowSelected_iff active_installs two_years_ago r).mpr ⟨h1, h2⟩⟩, hp.symm⟩

/-- C3: against a table whose slugs are distinct (the PRIMARY KEY
invariant), upserting the same record twice leaves exactly one row for its
slug and that row equals the second write; moreover after a single upsert
every row carrying that slug is the new record entire — no field survives
from the old row. -/
theorem c3_upsert_idempotent_wholesale (t : List DbUtils.Row)
    (r : DbUtils.Row) (hnd : DbUtils.slugsNodup t) :
    (DbUtils.upsert (DbUtils.upsert t r) r).filter
      (fun q => decide (q.slug = r.slug)) = [r] ∧
    ∀ q ∈ DbUtils.upsert t r, q.slug = r.slug → q = r := by
  constructor
  · exact upsert_filter_eq_single (DbUtils.upsert t r) r (upsert_nodup t r hnd)
  · intro q hq hslug
    unfold DbUtils.upsert at hq
    by_cases hmem : r.slug ∈ t.map DbUtils.Row.slug
    · rw [if_pos hmem] at hq
      obtain ⟨x, hx, rfl⟩ := List.mem_map.mp hq
      by_cases hxs : x.slug = r.slug
      · rw [if_pos hxs]
        exact conflictUpdate_self x r hxs
      · rw [if_neg hxs] at hslug
        exact absurd hslug hxs
    · rw [if_neg hmem] at hq
      rcases List.mem_append.mp hq with h | h
      · exact absurd (hslug ▸ List.mem_map_of_mem DbUtils.Row.slug h) hmem
      · simpa using h

/-- C3 witness: a concrete double upsert of record `r0` over table `t0`. -/
theorem c3_upsert_idempotent_wholesale_witness :
    DbUtils.slugsNodup DbUtils.t0 ∧
    (DbUtils.upsert (DbUtils.upsert DbUtils.t0 DbUtils.r0) DbUtils.r0).filter
      (fun q => decide (q.slug = DbUtils.r0.slug)) = [DbUtils.r0] :=
  ⟨by decide,
    (c3_upsert_idempotent_wholesale DbUtils.t0 DbUtils.r0 (by decide)).1⟩

/-- C9 counterexample: the claim says every absent optional field is stored
as the sentinel "N/A" or zero, but a catalog entry with an absent
last_updated is stored with SQL NULL in that column, which is neither. -/
theorem c9_null_default_counterexample :
    DbUtils.buildData DbUtils.p0 = .ok DbUtils.row0 ∧
    DbUtils.row0.last_updated = DbUtils.SqlValue.null ∧
    DbUtils.SqlValue.null ≠ DbUtils.SqlValue.text "N/A" ∧
    DbUtils.SqlValue.null ≠ DbUtils.SqlValue.int 0 := by
  refine ⟨rfl, rfl, ?_, ?_⟩ <;> intro h <;> cases h

/-- C9 amended: a present last_updated is normalized from the source 12-hour
format to the canonical "YYYY-MM-DD HH:MM:SS" rendering before storage;
absent version and download_link default to the sentinel "N/A", absent
active_installs and downloaded default to zero, and absent last_updated and
added dates are stored as SQL NULL. -/
theorem c9_normalization_amended (p : DbUtils.PluginJson) (r : DbUtils.Row)
    (h : DbUtils.buildData p = .ok r) :
    (∀ t, p.last_updated = some t →
        r.last_updated = .text (DbUtils.normalizeLastUpdated t)) ∧
    (p.last_updated = none → r.last_updated = .null) ∧
    (p.version = none → r.version = .text "N/A") ∧
    (p.download_link = none → r.download_link = .text "N/A") ∧
    (p.active_installs = none → r.active_installs = .int 0) ∧
    (p.downloaded = none → r.downloaded = .int 0) ∧
    (p.added = none → r.added_date = .null) := by
  cases hs : p.slug with
  | none => rw [DbUtils.buildData, hs] at h; cases h
  | some s =>
    rw [DbUtils.buildData, hs] at h
    injection h with h
    subst h
    refine ⟨?_, ?_, ?_, ?_, ?_, ?_, ?_⟩
    · intro t ht; simp [ht]
    · intro ht; simp [ht]
    · intro hv; simp [hv]
    · intro hd; simp [hd]
    · intro ha; simp [ha]
    · intro hd; simp [hd]
    · intro ha; simp [ha]

/-- C9 witness: the entry `p9` (last_updated "2023-05-01 6:30pm GMT", every
other optional field absent) is stored with the canonical rendering
"2023-05-01 18:30:00". -/
theorem c9_normalization_amended_witness :
    DbUtils.row9.last_updated =
      .text (DbUtils.normalizeLastUpdated DbUtils.ts0) ∧
    DbUtils.normalizeLastUpdated DbUtils.ts0 = "2023-05-01 18:30:00" :=
  ⟨(c9_normalization_amended DbUtils.p9 DbUtils.row9 rfl).1 DbUtils.ts0 rfl,
    by decide⟩

/-- C10: slug is the only required field of a catalog entry — when it is
absent, insert_plugin_into_db raises KeyError with the table untouched;
when it is present the operation never fails, whatever other fields are
absent. -/
theorem c10_slug_required (t : List DbUtils.Row) (p : DbUtils.PluginJson) :
    (p.slug = none →
        DbUtils.insert_plugin_into_db t p = (t, some DbUtils.PyErr.keyError)) ∧
    ∀ s, p.slug = some s → (DbUtils.insert_plugin_into_db t p).2 = none := by
  constructor
  · intro h
    simp [DbUtils.insert_plugin_into_db, DbUtils.buildData, h]
  · intro s h
    simp [DbUtils.insert_plugin_into_db, DbUtils.buildData, h]

/-- C10 witness: the slugless entry is rejected with the table unchanged,
while an entry carrying only a slug succeeds. -/
theorem c10_slug_required_witness :
    DbUtils.insert_plugin_into_db [] DbUtils.pNoSlug =
      ([], some DbUtils.PyErr.keyError) ∧
    (DbUtils.insert_plugin_into_db [] DbUtils.p0).2 = none :=
  ⟨(c10_slug_required [] DbUtils.pNoSlug).1 rfl,
    (c10_slug_required [] DbUtils.p0).2 "x" rfl⟩

theorem flushAt_join {α : Type} (limit : Nat) (ts : List α) :
    ∀ ongoing, (Downloader.flushAt limit ts ongoing).flatten = ongoing ++ ts := by
  induction ts with
  | nil =>
    intro ongoing
    by_cases h : 0 < ongoing.length
    · simp [Downloader.flushAt, h]
    · have hnil : ongoing = [] := by
        cases ongoing with
        | nil => rfl
        | cons a l => exact absurd (Nat.succ_pos l.length) h
      simp [Downloader.flushAt, h, hnil]
  | cons t ts ih =>
    intro ongoing
    by_cases h : (ongoing ++ [t]).length = limit
    · simp [Downloader.flushAt, h, ih]
    · simp only [Downloader.flushAt, if_neg h]
      rw [ih (ongoing ++ [t])]
      simp

theorem flushAt_cap {α : Type} (limit : Nat) (hl : 0 < limit) (ts : List α) :
    ∀ ongoing, ongoing.length < limit →
      ∀ b ∈ Downloader.flushAt limit ts ongoing, b.length ≤ limit := by
  induction ts with
  | nil =>
    intro ongoing hlen b hb
    by_cases h : 0 < ongoing.length
    · simp only [Downloader.flushAt, if_pos h, List.mem_singleton] at hb
      exact hb ▸ Nat.le_of_lt hlen
    · simp [Downloader.flushAt, h] at hb
  | cons t ts ih =>
    intro ongoing hlen b hb
    by_cases h : (ongoing ++ [t]).length = limit
    · simp only [Downloader.flushAt, if_pos h] at hb
      rcases List.mem_cons.mp hb with hb | hb
      · exact hb ▸ Nat.le_of_eq h
      · exact ih [] (by simpa using hl) b hb
    · simp only [Downloader.flushAt, if_neg h] at hb
      refine ih (ongoing ++ [t]) ?_ b hb
      have h2 : (ongoing ++ [t]).length = ongoing.length + 1 := by simp
      omega

/-- C1: download_plugins_in_database admits fetch-and-extract work in
batches of at most gatherLimit (the literal 10, its concurrency limit): the
batches it gathers partition the selected plugin list in order, each batch
is awaited in full before the next is admitted, and no batch — hence no set
of simultaneously unresolved operations — exceeds the limit, however many
records were selected. -/
theorem c1_download_concurrency_cap (plugins : List (String × String)) :
    (∀ b ∈ Downloader.download_plugins_in_database plugins,
        b.length ≤ Downloader.gatherLimit) ∧
    (Downloader.download_plugins_in_database plugins).flatten = plugins := by
  constructor
  · intro b hb
    exact flushAt_cap Downloader.gatherLimit (by decide) plugins []
      (by decide) b hb
  · simpa using flushAt_join Downloader.gatherLimit plugins []

/-- C1 witness: 25 identical records are gathered as two full batches of 10
and one remainder of 5; the first batch witnesses the bound. -/
theorem c1_download_concurrency_cap_witness :
    List.replicate 10 ("s", "u") ∈
      Downloader.download_plugins_in_database (List.replicate 25 ("s", "u")) ∧
    (List.replicate 10 ("s", "u")).length ≤ Downloader.gatherLimit ∧
    (Downloader.download_plugins_in_database
        (List.replicate 25 ("s", "u"))).flatten = List.replicate 25 ("s", "u") :=
  ⟨by decide,
    (c1_download_concurrency_cap (List.replicate 25 ("s", "u"))).1
      (List.replicate 10 ("s", "u")) (by decide),
    (c1_download_concurrency_cap (List.replicate 25 ("s", "u"))).2⟩

theorem runPages_all_present (source : Nat → Option Catalog.Page)
    (ps : List Nat)
    (h : ∀ p ∈ ps, ∃ pg items, source p = some pg ∧ pg.plugins = some items) :
    (Catalog.runPages source ps).1 = ps := by
  induction ps with
  | nil => rfl
  | cons p rest ih =>
    obtain ⟨pg, items, hpg, hpl⟩ := h p (List.mem_cons_self p rest)
    simp only [Catalog.runPages, hpg, hpl]
    rw [ih (fun q hq => h q (List.mem_cons_of_mem p hq))]

/-- C4 counterexample: over a source reporting 3 well-formed pages,
write_plugins_to_db issues 4 page requests in order 1, 1, 2, 3 — page 1 is
requested a second time by the loop — not the 3 strictly increasing
requests the claim states. -/
theorem c4_pagination_counterexample :
    (Catalog.write_plugins_to_db Catalog.source3).1 = [1, 1, 2, 3] ∧
    ((Catalog.write_plugins_to_db Catalog.source3).1).length ≠ 3 ∧
    (Catalog.write_plugins_to_db Catalog.source3).1 ≠ [1, 2, 3] := by
  decide

/-- C4 amended: over a source reporting N total pages with no malformed or
empty page, write_plugins_to_db issues exactly N+1 page requests: page 1
once to learn the total page count, then pages 1 through N in increasing
order — page 1 is fetched twice in all. -/
theorem c4_pagination_amended (source : Nat → Option Catalog.Page) (N : Nat)
    (pg1 : Catalog.Page) (h1 : source 1 = some pg1)
    (hN : pg1.info_pages = some N)
    (hall : ∀ p, 1 ≤ p → p ≤ N →
      ∃ pg items, source p = some pg ∧ pg.plugins = some items) :
    (Catalog.write_plugins_to_db source).1 = 1 :: List.range' 1 N := by
  simp only [Catalog.write_plugins_to_db, h1, hN]
  rw [runPages_all_present source (List.range' 1 N)]
  intro p hp
  rw [List.mem_range'_1] at hp
  exact hall p hp.1 (by omega)

/-- C4 witness: the 3-page source realizes the amended request trace
1, 1, 2, 3. -/
theorem c4_pagination_amended_witness :
    (Catalog.write_plugins_to_db Catalog.source3).1 = 1 :: List.range' 1 3 :=
  c4_pagination_amended Catalog.source3 3 ⟨some 3, some ["x"]⟩ rfl rfl
    (fun p _ h3 => ⟨⟨some 3, some ["x"]⟩, ["x"], by simp [Catalog.source3, h3], rfl⟩)

/-- C5: the audit pass aborts on a missing analyzer output file instead of
proceeding — with a failing plugin directory first and a succeeding one with
two findings second, it records zero findings and raises FileNotFoundError
out of the batch, while the succeeding directory alone yields both findings.
The open and json.load at lines 144-145 sit outside the try block, whose
JSONDecodeError handler is unreachable there. -/
theorem c5_audit_abort_eval :
    Audit.run_semgrep_and_store_results [Audit.badDir, Audit.goodDir] =
      ([], ["bad"], some (Audit.AbortErr.fileNotFound "bad")) ∧
    Audit.run_semgrep_and_store_results [Audit.goodDir] =
      ([("good", Audit.f1), ("good", Audit.f2)], [], none) := by
  exact ⟨rfl, rfl⟩

theorem extractUpToCorrupt_clean (es : List Archive.ZipEntry)
    (h : ∀ e ∈ es, e.corrupt = false) :
    Archive.extractUpToCorrupt es = (es.map Archive.ZipEntry.path, false) := by
  induction es with
  | nil => rfl
  | cons e es ih =>
    have he : e.corrupt = false := h e (List.mem_cons_self e es)
    simp [Archive.extractUpToCorrupt, he,
      ih (fun x hx => h x (List.mem_cons_of_mem e hx))]

theorem runFetch_complete (net : Archive.NetResult)
    (h : Archive.midCorruptFree net = true) :
    (Archive.runFetch net).1 = none ∨
      ∃ z, net = .ok z ∧ (Archive.runFetch net).1 = some (Archive.fullPaths z) := by
  cases net with
  | failure => exact Or.inl rfl
  | ok z =>
    cases hcd : z.centralDirOk with
    | false => exact Or.inl (by simp [Archive.runFetch, Archive.fetchExtract, hcd])
    | true =>
      simp only [Archive.midCorruptFree, hcd, Bool.not_true, Bool.false_or,
        Bool.or_eq_true] at h
      cases hz : z.entries with
      | nil =>
        exact Or.inl (by
          simp [Archive.runFetch, Archive.fetchExtract, hcd, hz,
            Archive.extractUpToCorrupt])
      | cons e es =>
        rw [hz] at h
        rcases h with hclean | hfirst
        · have hc : ∀ x ∈ z.entries, x.corrupt = false := by
            rw [hz]
            intro x hx
            simpa using List.all_eq_true.mp hclean x hx
          have hx := extractUpToCorrupt_clean z.entries hc
          rw [hz] at hx
          refine Or.inr ⟨z, rfl, ?_⟩
          simp [Archive.runFetch, Archive.fetchExtract, hcd, hz, hx,
            Archive.fullPaths]
        · have he : e.corrupt = true := by simpa using hfirst
          exact Or.inl (by
            simp [Archive.runFetch, Archive.fetchExtract, hcd, hz,
              Archive.extractUpToCorrupt, he])

/-- C6 counterexample: a successfully downloaded archive whose second member
is corrupt completes as a handled badZip failure yet leaves the slug
directory holding only the first member — neither fully absent nor the full
member list, a valid-looking directory to subsequent readers. -/
theorem c6_partial_extraction_counterexample :
    (Archive.download_and_extract_plugin false none Archive.netBad).1 =
      some ["a.php"] ∧
    (Archive.download_and_extract_plugin false none Archive.netBad).2.1 =
      Archive.Outcome.badZip ∧
    (Archive.download_and_extract_plugin false none Archive.netBad).1 ≠ none ∧
    (Archive.download_and_extract_plugin false none Archive.netBad).1 ≠
      some (Archive.fullPaths Archive.zBad) := by
  decide

/-- C6 amended: completion of download_and_extract_plugin leaves the slug
directory untouched (skip), fully absent, or fully extracted, in every case
except an archive whose corrupt member is reached after at least one member
was already extracted — there the members written before the failure remain
in place. -/
theorem c6_extraction_amended (replace : Bool) (dir : Option (List String))
    (net : Archive.NetResult) (h : Archive.midCorruptFree net = true) :
    (Archive.download_and_extract_plugin replace dir net).1 = dir ∨
    (Archive.download_and_extract_plugin replace dir net).1 = none ∨
    ∃ z, net = .ok z ∧
      (Archive.download_and_extract_plugin replace dir net).1 =
        some (Archive.fullPaths z) := by
  cases dir with
  | none =>
    rcases runFetch_complete net h with h1 | ⟨z, hz, h2⟩
    · exact Or.inr (Or.inl h1)
    · exact Or.inr (Or.inr ⟨z, hz, h2⟩)
  | some files =>
    cases replace with
    | false => exact Or.inl rfl
    | true =>
      rcases runFetch_complete net h with h1 | ⟨z, hz, h2⟩
      · exact Or.inr (Or.inl h1)
      · exact Or.inr (Or.inr ⟨z, hz, h2⟩)

/-- C6 witness: a failed download over an existing directory with replace
off leaves the directory exactly as it was. -/
theorem c6_extraction_amended_witness :
    (Archive.download_and_extract_plugin false (some ["old.php"])
        Archive.NetResult.failure).1 = some ["old.php"] ∨
    (Archive.download_and_extract_plugin false (some ["old.php"])
        Archive.NetResult.failure).1 = none ∨
    ∃ z, Archive.NetResult.failure = Archive.NetResult.ok z ∧
      (Archive.download_and_extract_plugin false (some ["old.php"])
          Archive.NetResult.failure).1 = some (Archive.fullPaths z) :=
  c6_extraction_amended false (some ["old.php"]) Archive.NetResult.failure
    (by decide)

/-- C7: with the target directory present, policy skip returns at once as a
non-error with zero network requests and the directory unchanged, while
policy replace first deletes the directory — its result is identical to a
run that started with the directory absent. -/
theorem c7_replace_policy (files : List String) (net : Archive.NetResult) :
    Archive.download_and_extract_plugin false (some files) net =
      (some files, Archive.Outcome.skipped, 0) ∧
    Archive.download_and_extract_plugin true (some files) net =
      Archive.download_and_extract_plugin true none net :=
  ⟨rfl, rfl⟩

/-- C8: executed against a missing schema, a store operation raises
sqlite3.OperationalError, which the except-ProgrammingError handler does not
catch: the run terminates through a generic uncaught exception instead of
the distinct, actionable SystemExit the handler was written to produce (and
which its own message promises). -/
theorem c8_schema_error_eval :
    Schema.storeOperation false =
      Schema.RunOutcome.uncaughtException Schema.SqliteError.operationalError ∧
    Schema.storeOperation false ≠ Schema.RunOutcome.systemExitSchemaMessage ∧
    Schema.storeOperation true = Schema.RunOutcome.completed := by
  decide

end WPAudit
